import Mathlib

/-!
Verification development for the multistage-rocket performance and sizing
engine (`rocket_physics.py`, `rocket_optimizer.py`,
`src/performance_analysis.py`).

Python floats are modelled as real numbers.  Operations that can raise a
Python exception (`math.log` / `math.sqrt` domain errors, division by zero,
out-of-range indexing) are modelled as `Option`-valued functions returning
`none` exactly on the raising inputs.  String membership tests (Python's
`in` operator on `str`) are modelled by an executable infix check on the
character lists.
-/

namespace RocketPhysics

/-- Physical constant `GRAVITY = 9.81` from `rocket_physics.py`. -/
noncomputable def GRAVITY : ℝ := 9.81

/-- Physical constant `EARTH_RADIUS = 6371000` from `rocket_physics.py`. -/
noncomputable def EARTH_RADIUS : ℝ := 6371000

/-- Python's `sub in s` membership test on strings. -/
def strContains (sub s : String) : Bool := decide (sub.toList <:+: s.toList)

/-- Python's `str.lower()` (ASCII, as the stage names here are). -/
def strToLower (s : String) : String := ⟨s.data.map Char.toLower⟩

/-- One entry of `PROPELLANT_COMBINATIONS` in `rocket_physics.py`. -/
structure Propellant where
  pname : String
  isp_vac : ℝ
  isp_sl : ℝ
  density : ℝ
  mixture_ratio : Option ℝ
  chamber_temp : ℝ
  chamber_pressure : ℝ
  gamma : ℝ

/-- Catalog entry `"LOX/LH2"` of `PROPELLANT_COMBINATIONS`. -/
noncomputable def LOX_LH2 : Propellant :=
  { pname := "Liquid Oxygen/Liquid Hydrogen", isp_vac := 450, isp_sl := 370,
    density := 360, mixture_ratio := some 5.5, chamber_temp := 3200,
    chamber_pressure := 6900000, gamma := 1.26 }

/-- Catalog entry `"LOX/RP1"` of `PROPELLANT_COMBINATIONS`. -/
noncomputable def LOX_RP1 : Propellant :=
  { pname := "Liquid Oxygen/RP-1", isp_vac := 340, isp_sl := 280,
    density := 1030, mixture_ratio := some 2.56, chamber_temp := 3670,
    chamber_pressure := 7600000, gamma := 1.22 }

/-- Catalog entry `"HTPB"` of `PROPELLANT_COMBINATIONS`. -/
noncomputable def HTPB : Propellant :=
  { pname := "HTPB Solid Propellant", isp_vac := 280, isp_sl := 250,
    density := 1700, mixture_ratio := none, chamber_temp := 3400,
    chamber_pressure := 6200000, gamma := 1.18 }

/-- The propellant-selection logic of `Stage.__init__`: a catalog lookup
that silently falls back to `"LOX/LH2"` for unknown keys. -/
noncomputable def propellantFor (propellant_type : String) : Propellant :=
  if propellant_type = "LOX/LH2" then LOX_LH2
  else if propellant_type = "LOX/RP1" then LOX_RP1
  else if propellant_type = "HTPB" then HTPB
  else LOX_LH2

/-- `Stage._calculate_optimal_expansion_ratio`: role heuristic keyed on
substrings of the lowercased stage name. -/
noncomputable def optimalExpansionRatio (name : String) : ℝ :=
  let n := strToLower name
  if strContains "first" n || strContains "booster" n then 10
  else if strContains "second" n then 40
  else if strContains "third" n || strContains "upper" n then 80
  else 25

/-- `Stage._calculate_thrust_coefficient`: the simplified thrust-coefficient
formula as written in the source, with the fixed `0.98` divergence
correction applied last. -/
noncomputable def thrustCoefficient (expansion_ratio gamma : ℝ) : ℝ :=
  let term1 := Real.sqrt ((2 * gamma ^ 2) / (gamma - 1))
  let term2 := (2 / (gamma + 1)) ^ ((gamma + 1) / (gamma - 1))
  let term3 := 1 - (1 / expansion_ratio) ^ (gamma - 1) / gamma
  term1 * term2 * Real.sqrt term3 * 0.98

/-- A fully constructed `Stage` object: constructor arguments plus every
derived attribute set by `Stage.__init__` and
`Stage._calculate_engine_parameters`. -/
structure Stage where
  name : String
  dry_mass : ℝ
  propellant_mass : ℝ
  thrust_sl : ℝ
  thrust_vac : ℝ
  burn_time : ℝ
  diameter : ℝ
  length : ℝ
  propellant : Propellant
  mass_ratio : ℝ
  total_mass : ℝ
  propellant_flow_rate : ℝ
  throat_area : ℝ
  throat_diameter : ℝ
  expansion_ratio : ℝ
  exit_area : ℝ
  exit_diameter : ℝ
  nozzle_length : ℝ

/-- `Stage.__init__` (including `_calculate_engine_parameters`).  Returns
`none` exactly where Python raises: `mass_ratio` divides by a zero
`dry_mass`; `math.sqrt` rejects negative arguments (the `term1` and `term3`
radicands of the thrust coefficient at the initial-guess expansion ratio
`20`, and the two nozzle-diameter radicands); the throat-area expression
divides by `Cf * pc`.  The name `mkStage?` stands for the Python
constructor. -/
noncomputable def mkStage? (name : String) (dry_mass propellant_mass thrust_sl
    thrust_vac burn_time diameter length : ℝ) (propellant_type : String) :
    Option Stage :=
  let propellant := propellantFor propellant_type
  if dry_mass = 0 then none
  else
    let mass_ratio := (dry_mass + propellant_mass) / dry_mass
    let total_mass := dry_mass + propellant_mass
    let propellant_flow_rate :=
      if 0 < burn_time then propellant_mass / burn_time else 0
    let pc := propellant.chamber_pressure
    let gamma := propellant.gamma
    if gamma - 1 = 0 then none
    else if (2 * gamma ^ 2) / (gamma - 1) < 0 then none
    else if 1 - (1 / (20 : ℝ)) ^ (gamma - 1) / gamma < 0 then none
    else
      let Cf := thrustCoefficient 20 gamma
      if Cf * pc = 0 then none
      else
        let throat_area := thrust_vac / (Cf * pc)
        if throat_area / Real.pi < 0 then none
        else
          let throat_diameter := 2 * Real.sqrt (throat_area / Real.pi)
          let expansion_ratio := optimalExpansionRatio name
          let exit_area := throat_area * expansion_ratio
          if exit_area / Real.pi < 0 then none
          else
            let exit_diameter := 2 * Real.sqrt (exit_area / Real.pi)
            let conical_length := (exit_diameter - throat_diameter) /
              (2 * Real.tan (Real.pi * 15 / 180))
            let nozzle_length := 0.8 * conical_length
            some { name := name, dry_mass := dry_mass,
                   propellant_mass := propellant_mass, thrust_sl := thrust_sl,
                   thrust_vac := thrust_vac, burn_time := burn_time,
                   diameter := diameter, length := length,
                   propellant := propellant, mass_ratio := mass_ratio,
                   total_mass := total_mass,
                   propellant_flow_rate := propellant_flow_rate,
                   throat_area := throat_area,
                   throat_diameter := throat_diameter,
                   expansion_ratio := expansion_ratio, exit_area := exit_area,
                   exit_diameter := exit_diameter,
                   nozzle_length := nozzle_length }

/-- `Stage.get_delta_v`: `isp * g0 * math.log(mass_ratio)`.  `math.log`
raises `ValueError` on a non-positive argument, modelled by `none`. -/
noncomputable def getDeltaV? (s : Stage) : Option ℝ :=
  if s.mass_ratio ≤ 0 then none
  else some (s.propellant.isp_vac * GRAVITY * Real.log s.mass_ratio)

/-- A `MultiStageRocket` object: name, payload and bottom-to-top stages. -/
structure MultiStageRocket where
  name : String
  payload_mass : ℝ
  stages : List Stage

/-- `MultiStageRocket.get_total_mass`: payload plus each stage's stored
`total_mass` attribute. -/
noncomputable def totalMass (r : MultiStageRocket) : ℝ :=
  r.payload_mass + (r.stages.map Stage.total_mass).sum

/-- `MultiStageRocket.get_height`: summed stage lengths plus a 10% fairing
margin. -/
noncomputable def getHeight (r : MultiStageRocket) : ℝ :=
  let h := (r.stages.map Stage.length).sum
  h + 0.1 * h

/-- The loop body of `MultiStageRocket.get_total_delta_v`: the running mass
drops by `propellant_mass + dry_mass` of each stage in one step, and the
Tsiolkovsky term of that stage uses `log(stage_start_mass / current_mass)`
with the *post-separation* mass in the denominator.  `math.log` raising on a
non-positive ratio (and the zero denominator) is modelled by `none`. -/
noncomputable def deltaVWalk : ℝ → List Stage → Option ℝ
  | _, [] => some 0
  | m, s :: rest =>
    let m' := m - (s.propellant_mass + s.dry_mass)
    if m' = 0 then none
    else if m / m' ≤ 0 then none
    else
      match deltaVWalk m' rest with
      | none => none
      | some dv =>
        some (GRAVITY * s.propellant.isp_vac * Real.log (m / m') + dv)

/-- `MultiStageRocket.get_total_delta_v`. -/
noncomputable def getTotalDeltaV? (r : MultiStageRocket) : Option ℝ :=
  deltaVWalk (totalMass r) r.stages

/-- Modelled from the spec: the staged walk as §4.2 describes it — each
stage's rocket-equation ratio spans only the burn (mass decreases by the
propellant mass during the burn), and the dry mass is dropped afterwards at
separation, affecting only the next stage's start mass.  This definition
follows the spec's words and exists to be compared with `deltaVWalk`, the
translation of the source. -/
noncomputable def specDeltaVWalk : ℝ → List Stage → ℝ
  | _, [] => 0
  | m, s :: rest =>
    GRAVITY * s.propellant.isp_vac * Real.log (m / (m - s.propellant_mass)) +
      specDeltaVWalk (m - s.propellant_mass - s.dry_mass) rest

/-- Modelled from the spec: the naive "treat the whole vehicle as one
stage" delta-v of §8 — all propellant burned while every stage's dry mass
and the payload are retained to burnout, evaluated at a given specific
impulse. -/
noncomputable def naiveSingleStageDeltaV (r : MultiStageRocket) (isp : ℝ) : ℝ :=
  GRAVITY * isp *
    Real.log (totalMass r /
      (totalMass r - (r.stages.map Stage.propellant_mass).sum))

/-- Modelled from the spec / claim C1: the naive sum of each stage's
independent delta-v (each from its own `mass_ratio` alone). -/
noncomputable def naiveStageSum (r : MultiStageRocket) : ℝ :=
  (r.stages.map (fun s => s.propellant.isp_vac * GRAVITY *
    Real.log s.mass_ratio)).sum

end RocketPhysics

namespace RocketOptimizer

open RocketPhysics

/-- The tank-pressure selection inside
`RocketOptimizer._calculate_wall_thickness`: Python tests
`"LOX" in stage.propellant["name"]` against the *display* name of the
propellant. -/
noncomputable def tankPressure (p : Propellant) : ℝ :=
  if strContains "LOX" p.pname then 300000 else 200000

/-- `RocketOptimizer._calculate_wall_thickness`.  `none` models the
`IndexError` on a bad stage index, the division by a zero cross-section
and the division by `yield_strength / safety_factor` with a zero safety
factor.  (The source also computes a local `hoop_stress` that it never
reads; that dead assignment is omitted.) -/
noncomputable def wallThickness? (payload_mass safety_factor : ℝ)
    (stages : List Stage) (stage_index : ℕ) : Option ℝ :=
  match stages.get? stage_index with
  | none => none
  | some stage =>
    let tank_pressure := tankPressure stage.propellant
    let external_pressure : ℝ := if stage_index = 0 then 101325 else 0
    let delta_p := tank_pressure - external_pressure
    let max_accel := 5.0 * GRAVITY
    let stage_mass_above :=
      payload_mass + ((stages.take stage_index).map Stage.total_mass).sum
    let accel_force := stage_mass_above * max_accel
    let cross_area := Real.pi * stage.diameter ^ 2 / 4
    if cross_area = 0 then none
    else if safety_factor = 0 then none
    else
      let accel_stress := accel_force / cross_area
      let yield_strength : ℝ := 270000000
      let min_thickness_pressure :=
        delta_p * (stage.diameter / 2) / (yield_strength / safety_factor)
      let min_thickness_accel :=
        accel_stress * (stage.diameter / 2) / (yield_strength / safety_factor)
      let min_thickness := max min_thickness_pressure min_thickness_accel
      let practical_min := max 0.002 (0.004 * stage.diameter)
      some (max min_thickness practical_min)

/-- `RocketOptimizer._estimate_altitude`.  The result pairs the returned
altitude with a flag that is `true` exactly when the liftoff-infeasibility
warning is printed.  `none` models the Python exceptions: a raising
`get_total_delta_v`, the thrust-to-weight division by a zero
`initial_mass * GRAVITY`, the `stages[0]` indexing and the
fineness-ratio divisions. -/
noncomputable def estimateAltitude? (r : MultiStageRocket) :
    Option (ℝ × Bool) := do
  let delta_v ← getTotalDeltaV? r
  let initial_mass := totalMass r
  let first_stage_thrust_sl := match r.stages with
    | [] => 0
    | s :: _ => s.thrust_sl
  if initial_mass * GRAVITY = 0 then none
  else
    let twr := first_stage_thrust_sl / (initial_mass * GRAVITY)
    if twr < 1.2 then some (0, true)
    else
      let gravity_loss := 1500 * (1.5 / twr)
      match r.stages with
      | [] => none
      | s0 :: _ =>
        let diameter := s0.diameter
        let length := getHeight r
        if diameter = 0 then none
        else
          let fineness_ratio := length / diameter
          if fineness_ratio = 0 then none
          else
            let drag_loss := 300 * (3.0 / fineness_ratio) * (diameter / 3.0)
            let effective_delta_v := delta_v - gravity_loss - drag_loss
            if effective_delta_v ≤ 0 then some (0, false)
            else if effective_delta_v < 7800 then
              some (effective_delta_v ^ 2 / (2 * GRAVITY) * 0.85, false)
            else
              let mu := GRAVITY * EARTH_RADIUS ^ 2
              let orbital_radius := mu / effective_delta_v ^ 2
              some (max 0 (orbital_radius - EARTH_RADIUS), false)

/-- The per-stage mass fraction and propellant-type tables of
`RocketOptimizer._initialize_rocket` (`stage_mass_fractions` and
`stage_propellants` zipped).  `none` models the `KeyError` for a stage
count outside 1-3. -/
def stageTable : ℕ → Option (List (ℝ × String))
  | 1 => some [(1.0, "LOX/RP1")]
  | 2 => some [(0.80, "LOX/RP1"), (0.20, "LOX/LH2")]
  | 3 => some [(0.75, "LOX/RP1"), (0.20, "LOX/LH2"), (0.05, "LOX/LH2")]
  | _ => none

/-- The body of the per-stage loop of `RocketOptimizer._initialize_rocket`:
heuristic sizing for stage `i` from the target altitude, the estimated
total vehicle mass and that stage's mass fraction and propellant type. -/
noncomputable def initStage? (target_altitude total_mass_estimate : ℝ)
    (i : ℕ) (frac : ℝ) (prop : String) : Option Stage :=
  let base_diameter : ℝ :=
    if target_altitude < 100000 then 1.5
    else if target_altitude < 400000 then 3.7
    else 8.4
  let diameter_factor : ℝ := if i = 0 then 1.0 else if i = 1 then 0.9 else 0.8
  let diameter := base_diameter * diameter_factor
  let stage_mass := total_mass_estimate * frac
  let propellant_fraction : ℝ :=
    if i = 0 then 0.93 else if i = 1 then 0.90 else 0.88
  let propellant_mass := stage_mass * propellant_fraction
  let dry_mass := stage_mass - propellant_mass
  let base_l_to_d : ℝ := if i = 0 then 10.0 else if i = 1 then 5.0 else 3.0
  let length := diameter * base_l_to_d
  let thrust_sl := if i = 0 then 1.4 * stage_mass * GRAVITY else 0
  let thrust_vac :=
    if i = 0 then 1.6 * stage_mass * GRAVITY else 0.9 * stage_mass * GRAVITY
  let isp_vac : ℝ := if prop = "LOX/RP1" then 340 else 450
  let burn_time :=
    if 0 < propellant_mass ∧ 0 < thrust_vac then
      propellant_mass / (thrust_vac / (isp_vac * GRAVITY))
    else 200
  mkStage? ("Stage " ++ toString (i + 1)) dry_mass propellant_mass thrust_sl
    thrust_vac burn_time diameter length prop

/-- The stage-construction loop of `RocketOptimizer._initialize_rocket`. -/
noncomputable def initStages? (target_altitude total_mass_estimate : ℝ) :
    ℕ → List (ℝ × String) → Option (List Stage)
  | _, [] => some []
  | i, (frac, prop) :: rest => do
    let st ← initStage? target_altitude total_mass_estimate i frac prop
    let sts ← initStages? target_altitude total_mass_estimate (i + 1) rest
    some (st :: sts)

/-- `RocketOptimizer.__init__` followed by `_initialize_rocket`: no input
validation is performed; the heuristic sizing runs unconditionally and
ends by storing the `_estimate_altitude` result in `max_altitude`.  The
result carries the constructed rocket and that initial altitude estimate.
(The rocket's display name, a formatted string never read by any
computation, is abbreviated.) -/
noncomputable def initOptimizer? (target_altitude payload_mass : ℝ)
    (num_stages : ℕ) : Option (MultiStageRocket × ℝ) := do
  let initial_mass_ratio : ℝ :=
    if target_altitude < 100000 then 20
    else if target_altitude < 400000 then 30
    else 50
  let total_mass_estimate := payload_mass * initial_mass_ratio
  let table ← stageTable num_stages
  let stages ← initStages? target_altitude total_mass_estimate 0 table
  let rocket : MultiStageRocket :=
    { name := toString num_stages ++ "-Stage", payload_mass := payload_mass,
      stages := stages }
  let est ← estimateAltitude? rocket
  some (rocket, est.1)

end RocketOptimizer

namespace PerformanceAnalysis

/-- `atmospheric_properties` inside
`RocketPerformanceAnalyzer.analyze_trajectory`: exponential atmosphere,
clamped to the sea-level triple `(p0, rho0, T0)` for negative altitude.
Returns `(pressure, density, temperature)`. -/
noncomputable def atmosphericProperties (altitude : ℝ) : ℝ × ℝ × ℝ :=
  if altitude < 0 then (101325, 1.225, 288.15)
  else
    let pressure := 101325 * Real.exp (-altitude / 7500)
    let density := 1.225 * Real.exp (-altitude / 7000)
    (pressure, density, pressure / (density * 287.05))

/-- `drag_coefficient` inside `analyze_trajectory`: 3-regime piecewise
model in Mach number. -/
noncomputable def dragCoefficient (mach : ℝ) : ℝ :=
  if mach < 0.8 then 0.2
  else if mach < 1.2 then 0.2 + 0.4 * (mach - 0.8) / 0.4
  else 0.6 - 0.1 * min (mach - 1.2) 3 / 3

/-- `drag_force` inside `analyze_trajectory`.  `none` models the
`math.sqrt` domain error on a negative speed-of-sound radicand;
`-math.copysign(drag, velocity)` keeps the drag opposed to the velocity
(with Python's positive sign for `velocity = 0.0`). -/
noncomputable def dragForce? (max_diameter altitude velocity : ℝ) :
    Option ℝ :=
  let density := (atmosphericProperties altitude).2.1
  let temperature := (atmosphericProperties altitude).2.2
  if 1.4 * 287.05 * temperature < 0 then none
  else
    let speed_of_sound := Real.sqrt (1.4 * 287.05 * temperature)
    let mach := if 0 < speed_of_sound then |velocity| / speed_of_sound else 0
    let diameter := max_diameter / 1000
    let reference_area := Real.pi * (diameter / 2) ^ 2
    let cd := dragCoefficient mach
    let drag := 0.5 * density * velocity ^ 2 * cd * reference_area
    some (if velocity < 0 then |drag| else -|drag|)

/-- `mass_function` inside `analyze_trajectory`: linear depletion during
the burn, then the constant dry mass.  `none` models the division by a
zero `burn_time` in the burning branch. -/
noncomputable def massFunction? (wet_mass dry_mass propellant_mass burn_time
    t : ℝ) : Option ℝ :=
  if t ≤ burn_time then
    if burn_time = 0 then none
    else some (wet_mass - propellant_mass / burn_time * t)
  else some dry_mass

/-- `thrust_function` inside `analyze_trajectory`: constant thrust during
the burn, zero afterwards. -/
noncomputable def thrustFunction (thrust burn_time t : ℝ) : ℝ :=
  if t ≤ burn_time then thrust else 0

/-- `dynamics` inside `analyze_trajectory`: the right-hand side of the
ascent ODE for state `(altitude, velocity)`.  `none` models the raising
cases: the mass function's division, the inverse-square gravity division
at `altitude = -EARTH_RADIUS`, the drag force's square root and the
division by a zero current mass. -/
noncomputable def dynamics? (thrust burn_time wet_mass dry_mass
    propellant_mass max_diameter : ℝ) (t altitude velocity : ℝ) :
    Option (ℝ × ℝ) := do
  let mass ← massFunction? wet_mass dry_mass propellant_mass burn_time t
  let thrust_now := thrustFunction thrust burn_time t
  if (6371000 : ℝ) + altitude = 0 then none
  else
    let gravity := 9.81 * (6371000 / (6371000 + altitude)) ^ 2
    let drag ← dragForce? max_diameter altitude velocity
    if mass = 0 then none
    else some (velocity, (thrust_now + drag) / mass - gravity)

/-- The mutable state of the search loop in
`RocketPerformanceAnalyzer.calculate_maximum_payload`: the current payload
estimate, the altitude it reaches, the current step size and the
analyzer's (mutated) `dry_mass` attribute. -/
structure SearchState where
  current_payload : ℝ
  current_altitude : ℝ
  step : ℝ
  dry_mass : ℝ

/-- The `while step >= min_step` search loop of
`calculate_maximum_payload`, with the apogee of `analyze_trajectory`
abstracted as a function of the analyzer's `dry_mass` (the only analyzer
attribute the loop mutates).  Structural recursion on a fuel bound models
the unbounded Python loop: `none` means the loop has not exited within
`fuel` iterations, so the quantified results below cover every run that
actually returns. -/
noncomputable def payloadLoop (apogee : ℝ → ℝ)
    (original_dry_mass target_altitude altitude_range : ℝ)
    (maximize_payload : Bool) : ℕ → SearchState → Option SearchState
  | 0, st => if st.step < 0.1 then some st else none
  | Nat.succ fuel, st =>
    if st.step < 0.1 then some st
    else
      let test_payload := st.current_payload + st.step
      let dry' := original_dry_mass - st.current_payload + test_payload
      let test_altitude := apogee dry'
      if maximize_payload then
        if target_altitude ≤ test_altitude then
          payloadLoop apogee original_dry_mass target_altitude altitude_range
            maximize_payload fuel
            ⟨test_payload, test_altitude, st.step, dry'⟩
        else
          payloadLoop apogee original_dry_mass target_altitude altitude_range
            maximize_payload fuel
            ⟨st.current_payload, st.current_altitude, st.step / 2, dry'⟩
      else
        if |test_altitude - target_altitude| ≤ altitude_range then
          some ⟨test_payload, test_altitude, st.step, dry'⟩
        else if target_altitude < test_altitude then
          payloadLoop apogee original_dry_mass target_altitude altitude_range
            maximize_payload fuel
            ⟨test_payload, test_altitude, st.step, dry'⟩
        else
          payloadLoop apogee original_dry_mass target_altitude altitude_range
            maximize_payload fuel
            ⟨st.current_payload, st.current_altitude, st.step / 2, dry'⟩

/-- The dictionary returned by `calculate_maximum_payload`. -/
structure PayloadInfo where
  max_payload : ℝ
  altitude_with_max_payload : ℝ
  target_altitude : ℝ
  altitude_difference : ℝ

/-- `RocketPerformanceAnalyzer.calculate_maximum_payload`.  The first
component of the result is the analyzer's `dry_mass` attribute at the
moment the method returns (the line `self.dry_mass = original_dry_mass`
runs unconditionally before every return).  `none` covers runs whose
search loop does not exit within the given fuel. -/
noncomputable def calculateMaximumPayload (apogee : ℝ → ℝ)
    (dry_mass : ℝ) (target_altitude? : Option ℝ)
    (altitude_range? : Option ℝ) (fuel : ℕ) : Option (ℝ × PayloadInfo) := do
  let current_payload : ℝ := 50
  let original_dry_mass := dry_mass
  let current_altitude := apogee original_dry_mass
  let target_altitude := match target_altitude? with
    | none => (1000 : ℝ)
    | some t => t
  let maximize_payload := match target_altitude? with
    | none => true
    | some _ => false
  let altitude_range := match altitude_range? with
    | none => target_altitude * 0.05
    | some rg => rg
  let final ← payloadLoop apogee original_dry_mass target_altitude
    altitude_range maximize_payload fuel
    ⟨current_payload, current_altitude, 25, original_dry_mass⟩
  some (original_dry_mass,
    { max_payload := final.current_payload,
      altitude_with_max_payload := final.current_altitude,
      target_altitude := target_altitude,
      altitude_difference := final.current_altitude - target_altitude })

end PerformanceAnalysis

namespace RocketPhysics

lemma propellantFor_mem (pt : String) :
    propellantFor pt = LOX_LH2 ∨ propellantFor pt = LOX_RP1 ∨
      propellantFor pt = HTPB := by
  unfold propellantFor
  split_ifs <;> simp

lemma gamma_gt_one (pt : String) : 1 < (propellantFor pt).gamma := by
  rcases propellantFor_mem pt with h | h | h <;>
    rw [h] <;> norm_num [LOX_LH2, LOX_RP1, HTPB]

lemma chamber_pressure_pos (pt : String) :
    0 < (propellantFor pt).chamber_pressure := by
  rcases propellantFor_mem pt with h | h | h <;>
    rw [h] <;> norm_num [LOX_LH2, LOX_RP1, HTPB]

lemma GRAVITY_pos : (0 : ℝ) < GRAVITY := by unfold GRAVITY; norm_num

lemma term3_pos (gamma er : ℝ) (hg : 1 < gamma) (he : 1 ≤ er) :
    0 < 1 - (1 / er) ^ (gamma - 1) / gamma := by
  have hg0 : (0 : ℝ) < gamma := by linarith
  have he0 : (0 : ℝ) < er := by linarith
  have h1 : (0 : ℝ) ≤ 1 / er := by positivity
  have h2 : (1 : ℝ) / er ≤ 1 := by
    rw [div_le_one he0]; linarith
  have h3 : ((1 : ℝ) / er) ^ (gamma - 1) ≤ 1 :=
    Real.rpow_le_one h1 h2 (by linarith)
  have h4 : ((1 : ℝ) / er) ^ (gamma - 1) / gamma ≤ 1 / gamma := by gcongr
  have h5 : (1 : ℝ) / gamma < 1 := by
    rw [div_lt_one hg0]; linarith
  linarith

lemma thrustCoefficient_pos (er gamma : ℝ) (hg : 1 < gamma) (he : 1 ≤ er) :
    0 < thrustCoefficient er gamma := by
  unfold thrustCoefficient
  have h1 : 0 < Real.sqrt ((2 * gamma ^ 2) / (gamma - 1)) :=
    Real.sqrt_pos.mpr (div_pos (by nlinarith) (by linarith))
  have h2 : 0 < (2 / (gamma + 1)) ^ ((gamma + 1) / (gamma - 1)) :=
    Real.rpow_pos_of_pos (div_pos two_pos (by linarith)) _
  have h4 : 0 < Real.sqrt (1 - (1 / er) ^ (gamma - 1) / gamma) :=
    Real.sqrt_pos.mpr (term3_pos gamma er hg he)
  have : (0:ℝ) < 0.98 := by norm_num
  exact mul_pos (mul_pos (mul_pos h1 h2) h4) this

lemma thrustCoefficient_lt (gamma e1 e2 : ℝ) (hg : 1 < gamma) (h1 : 1 ≤ e1)
    (h12 : e1 < e2) : thrustCoefficient e1 gamma < thrustCoefficient e2 gamma := by
  unfold thrustCoefficient
  have he1 : (0 : ℝ) < e1 := by linarith
  have hrp : ((1 : ℝ) / e2) ^ (gamma - 1) < ((1 : ℝ) / e1) ^ (gamma - 1) :=
    Real.rpow_lt_rpow
      (by have he2 : (0:ℝ) < e2 := by linarith
          positivity)
      (one_div_lt_one_div_of_lt he1 h12) (by linarith)
  have ht3 : 1 - (1 / e1) ^ (gamma - 1) / gamma <
      1 - (1 / e2) ^ (gamma - 1) / gamma := by
    have := div_lt_div_of_pos_right hrp (show (0:ℝ) < gamma by linarith)
    linarith
  have hsq : Real.sqrt (1 - (1 / e1) ^ (gamma - 1) / gamma) <
      Real.sqrt (1 - (1 / e2) ^ (gamma - 1) / gamma) :=
    Real.sqrt_lt_sqrt (le_of_lt (term3_pos gamma e1 hg h1)) ht3
  have hc : 0 < Real.sqrt ((2 * gamma ^ 2) / (gamma - 1)) *
      (2 / (gamma + 1)) ^ ((gamma + 1) / (gamma - 1)) :=
    mul_pos (Real.sqrt_pos.mpr (div_pos (by nlinarith) (by linarith)))
      (Real.rpow_pos_of_pos (div_pos two_pos (by linarith)) _)
  have := mul_lt_mul_of_pos_left hsq hc
  have h98 : (0:ℝ) < 0.98 := by norm_num
  calc Real.sqrt ((2 * gamma ^ 2) / (gamma - 1)) *
        (2 / (gamma + 1)) ^ ((gamma + 1) / (gamma - 1)) *
        Real.sqrt (1 - (1 / e1) ^ (gamma - 1) / gamma) * 0.98
      < Real.sqrt ((2 * gamma ^ 2) / (gamma - 1)) *
        (2 / (gamma + 1)) ^ ((gamma + 1) / (gamma - 1)) *
        Real.sqrt (1 - (1 / e2) ^ (gamma - 1) / gamma) * 0.98 := by
        apply mul_lt_mul_of_pos_right _ h98
        rw [mul_assoc, mul_assoc]
        exact mul_lt_mul_of_pos_left
          (mul_lt_mul_of_pos_left hsq
            (Real.rpow_pos_of_pos (div_pos two_pos (by linarith)) _))
          (Real.sqrt_pos.mpr (div_pos (by nlinarith) (by linarith)))

lemma optimalExpansionRatio_nonneg (name : String) :
    0 ≤ optimalExpansionRatio name := by
  simp only [optimalExpansionRatio]
  split_ifs <;> norm_num

/-- The expression `thrust_vac / (Cf * chamber_pressure)` that
`_calculate_engine_parameters` assigns to `throat_area`, with `Cf`
evaluated at the fixed initial-guess expansion ratio `20`. -/
noncomputable def stageThroatArea (pt : String) (thrust_vac : ℝ) : ℝ :=
  thrust_vac / (thrustCoefficient 20 (propellantFor pt).gamma *
    (propellantFor pt).chamber_pressure)

/-- The `Stage` object that `Stage.__init__` produces on a non-raising
run, every derived attribute written out explicitly. -/
noncomputable def builtStage (name : String) (d p tsl tv bt dia len : ℝ)
    (pt : String) : Stage :=
  { name := name, dry_mass := d, propellant_mass := p, thrust_sl := tsl,
    thrust_vac := tv, burn_time := bt, diameter := dia, length := len,
    propellant := propellantFor pt, mass_ratio := (d + p) / d,
    total_mass := d + p,
    propellant_flow_rate := if 0 < bt then p / bt else 0,
    throat_area := stageThroatArea pt tv,
    throat_diameter := 2 * Real.sqrt (stageThroatArea pt tv / Real.pi),
    expansion_ratio := optimalExpansionRatio name,
    exit_area := stageThroatArea pt tv * optimalExpansionRatio name,
    exit_diameter :=
      2 * Real.sqrt (stageThroatArea pt tv * optimalExpansionRatio name /
        Real.pi),
    nozzle_length := 0.8 *
      ((2 * Real.sqrt (stageThroatArea pt tv * optimalExpansionRatio name /
          Real.pi) - 2 * Real.sqrt (stageThroatArea pt tv / Real.pi)) /
        (2 * Real.tan (Real.pi * 15 / 180))) }

lemma mkStage_eq (name : String) (d p tsl tv bt dia len : ℝ) (pt : String)
    (hd : d ≠ 0) (htv : 0 ≤ tv) :
    mkStage? name d p tsl tv bt dia len pt =
      some (builtStage name d p tsl tv bt dia len pt) := by
  have hg : 1 < (propellantFor pt).gamma := gamma_gt_one pt
  have hpc : 0 < (propellantFor pt).chamber_pressure := chamber_pressure_pos pt
  have hCf : 0 < thrustCoefficient 20 (propellantFor pt).gamma :=
    thrustCoefficient_pos 20 _ hg (by norm_num)
  have h2 : ¬((propellantFor pt).gamma - 1 = 0) := by
    intro h; linarith
  have h3 : ¬((2 * (propellantFor pt).gamma ^ 2) /
      ((propellantFor pt).gamma - 1) < 0) := by
    push_neg
    exact le_of_lt (div_pos (by nlinarith) (by linarith))
  have h4 : ¬(1 - (1 / (20:ℝ)) ^ ((propellantFor pt).gamma - 1) /
      (propellantFor pt).gamma < 0) := by
    push_neg
    exact le_of_lt (term3_pos _ 20 hg (by norm_num))
  have h5 : ¬(thrustCoefficient 20 (propellantFor pt).gamma *
      (propellantFor pt).chamber_pressure = 0) :=
    ne_of_gt (mul_pos hCf hpc)
  have hta : 0 ≤ stageThroatArea pt tv :=
    div_nonneg htv (le_of_lt (mul_pos hCf hpc))
  have h6 : ¬(tv / (thrustCoefficient 20 (propellantFor pt).gamma *
      (propellantFor pt).chamber_pressure) / Real.pi < 0) := by
    push_neg
    exact div_nonneg hta (le_of_lt Real.pi_pos)
  have h7 : ¬(tv / (thrustCoefficient 20 (propellantFor pt).gamma *
      (propellantFor pt).chamber_pressure) * optimalExpansionRatio name /
      Real.pi < 0) := by
    push_neg
    exact div_nonneg (mul_nonneg hta (optimalExpansionRatio_nonneg name))
      (le_of_lt Real.pi_pos)
  simp only [mkStage?]
  rw [if_neg hd, if_neg h2, if_neg h3, if_neg h4, if_neg h5, if_neg h6,
    if_neg h7]
  rfl

end RocketPhysics

namespace RocketPhysics

/-- Well-formedness of a stage for the delta-v arguments: positive dry and
propellant masses, a positive vacuum specific impulse, and a `total_mass`
attribute consistent with the masses (as `Stage.__init__` establishes). -/
def StageWF (s : Stage) : Prop :=
  0 < s.dry_mass ∧ 0 < s.propellant_mass ∧ 0 < s.propellant.isp_vac ∧
    s.total_mass = s.dry_mass + s.propellant_mass

/-- The total propellant-plus-dry mass shed over a list of stages. -/
noncomputable def sumPD (l : List Stage) : ℝ :=
  (l.map (fun s => s.propellant_mass + s.dry_mass)).sum

lemma sumPD_nil : sumPD [] = 0 := rfl

lemma sumPD_cons (s : Stage) (l : List Stage) :
    sumPD (s :: l) = (s.propellant_mass + s.dry_mass) + sumPD l := by
  simp [sumPD]

lemma sumPD_nonneg (l : List Stage) (h : ∀ s ∈ l, StageWF s) :
    0 ≤ sumPD l := by
  induction l with
  | nil => simp [sumPD]
  | cons s rest ih =>
    obtain ⟨hd, hp, -, -⟩ := h s (List.mem_cons_self s rest)
    have := ih (fun x hx => h x (List.mem_cons_of_mem s hx))
    rw [sumPD_cons]
    linarith

lemma sum_total_mass_eq (l : List Stage) (h : ∀ s ∈ l, StageWF s) :
    (l.map Stage.total_mass).sum = sumPD l := by
  induction l with
  | nil => simp [sumPD]
  | cons s rest ih =>
    obtain ⟨-, -, -, ht⟩ := h s (List.mem_cons_self s rest)
    rw [sumPD_cons, List.map_cons, List.sum_cons,
      ih (fun x hx => h x (List.mem_cons_of_mem s hx)), ht]
    ring

lemma totalMass_eq (r : MultiStageRocket) (h : ∀ s ∈ r.stages, StageWF s) :
    totalMass r = r.payload_mass + sumPD r.stages := by
  unfold totalMass
  rw [sum_total_mass_eq r.stages h]

/-- On a well-formed stage list whose running mass stays positive, the
source's delta-v walk succeeds and strictly exceeds the burn-then-separate
walk of the spec whenever at least one stage is present. -/
lemma deltaVWalk_some (l : List Stage) : ∀ m : ℝ,
    (∀ s ∈ l, StageWF s) → 0 < m - sumPD l →
    ∃ v, deltaVWalk m l = some v ∧ specDeltaVWalk m l ≤ v ∧
      (l ≠ [] → specDeltaVWalk m l < v) := by
  induction l with
  | nil =>
    intro m _ _
    exact ⟨0, rfl, le_of_eq rfl, fun h => absurd rfl h⟩
  | cons s rest ih =>
    intro m h hm
    obtain ⟨hd, hp, hisp, -⟩ := h s (List.mem_cons_self s rest)
    have hrest : ∀ x ∈ rest, StageWF x :=
      fun x hx => h x (List.mem_cons_of_mem s hx)
    have hm2 : 0 < m - (s.propellant_mass + s.dry_mass) - sumPD rest := by
      rw [sumPD_cons] at hm; linarith
    have hm'pos : 0 < m - (s.propellant_mass + s.dry_mass) := by
      have := sumPD_nonneg rest hrest; linarith
    have hmpos : 0 < m := by linarith
    have hmm' : m - (s.propellant_mass + s.dry_mass) < m := by linarith
    have hratio : 0 < m / (m - (s.propellant_mass + s.dry_mass)) :=
      div_pos hmpos hm'pos
    obtain ⟨v, hv, hle, hlt⟩ :=
      ih (m - (s.propellant_mass + s.dry_mass)) hrest hm2
    have hgi : 0 < GRAVITY * s.propellant.isp_vac :=
      mul_pos GRAVITY_pos hisp
    have hmp : 0 < m - s.propellant_mass := by linarith
    have hspec_head :
        Real.log (m / (m - s.propellant_mass)) ≤
          Real.log (m / (m - (s.propellant_mass + s.dry_mass))) := by
      apply Real.log_le_log (div_pos hmpos hmp)
      exact div_le_div_of_nonneg_left (le_of_lt hmpos) hm'pos (by linarith)
    have hspec_head_lt :
        Real.log (m / (m - s.propellant_mass)) <
          Real.log (m / (m - (s.propellant_mass + s.dry_mass))) := by
      apply Real.log_lt_log (div_pos hmpos hmp)
      exact div_lt_div_of_pos_left hmpos hm'pos (by linarith)
    have hrw : m - s.propellant_mass - s.dry_mass =
        m - (s.propellant_mass + s.dry_mass) := by ring
    refine ⟨GRAVITY * s.propellant.isp_vac *
      Real.log (m / (m - (s.propellant_mass + s.dry_mass))) + v, ?_, ?_, ?_⟩
    · simp only [deltaVWalk]
      rw [if_neg (ne_of_gt hm'pos), if_neg (not_le.mpr hratio), hv]
    · rw [specDeltaVWalk, hrw]
      have h1 : GRAVITY * s.propellant.isp_vac *
          Real.log (m / (m - s.propellant_mass)) ≤
          GRAVITY * s.propellant.isp_vac *
          Real.log (m / (m - (s.propellant_mass + s.dry_mass))) :=
        mul_le_mul_of_nonneg_left hspec_head (le_of_lt hgi)
      linarith
    · intro _
      rw [specDeltaVWalk, hrw]
      have h1 : GRAVITY * s.propellant.isp_vac *
          Real.log (m / (m - s.propellant_mass)) <
          GRAVITY * s.propellant.isp_vac *
          Real.log (m / (m - (s.propellant_mass + s.dry_mass))) :=
        mul_lt_mul_of_pos_left hspec_head_lt hgi
      linarith

/-- Lower bound on the source's delta-v walk: with every stage's vacuum
specific impulse at least `isp`, the walk is at least the telescoped
`GRAVITY * isp * (log start - log final)` of the running mass. -/
lemma deltaVWalk_ge (l : List Stage) : ∀ (m isp v : ℝ), 0 ≤ isp →
    (∀ s ∈ l, StageWF s) → (∀ s ∈ l, isp ≤ s.propellant.isp_vac) →
    0 < m - sumPD l → deltaVWalk m l = some v →
    GRAVITY * isp * (Real.log m - Real.log (m - sumPD l)) ≤ v := by
  induction l with
  | nil =>
    intro m isp v _ _ _ _ hv
    have h0 : (0 : ℝ) = v := Option.some.inj hv
    rw [sumPD_nil, sub_zero, sub_self, mul_zero, ← h0]
  | cons s rest ih =>
    intro m isp v hisp0 h hb hm hv
    obtain ⟨hd, hp, hispvac, -⟩ := h s (List.mem_cons_self s rest)
    have hrest : ∀ x ∈ rest, StageWF x :=
      fun x hx => h x (List.mem_cons_of_mem s hx)
    have hbrest : ∀ x ∈ rest, isp ≤ x.propellant.isp_vac :=
      fun x hx => hb x (List.mem_cons_of_mem s hx)
    have hm2 : 0 < m - (s.propellant_mass + s.dry_mass) - sumPD rest := by
      rw [sumPD_cons] at hm; linarith
    have hm'pos : 0 < m - (s.propellant_mass + s.dry_mass) := by
      have := sumPD_nonneg rest hrest; linarith
    have hmpos : 0 < m := by linarith
    have hratio : 0 < m / (m - (s.propellant_mass + s.dry_mass)) :=
      div_pos hmpos hm'pos
    simp only [deltaVWalk] at hv
    rw [if_neg (ne_of_gt hm'pos), if_neg (not_le.mpr hratio)] at hv
    cases hrec : deltaVWalk (m - (s.propellant_mass + s.dry_mass)) rest with
    | none => rw [hrec] at hv; exact absurd hv (by simp)
    | some v2 =>
      rw [hrec] at hv
      have hveq : GRAVITY * s.propellant.isp_vac *
          Real.log (m / (m - (s.propellant_mass + s.dry_mass))) + v2 = v :=
        Option.some.inj hv
      have hlogdiv : Real.log (m / (m - (s.propellant_mass + s.dry_mass))) =
          Real.log m - Real.log (m - (s.propellant_mass + s.dry_mass)) :=
        Real.log_div (ne_of_gt hmpos) (ne_of_gt hm'pos)
      have hlog_lt : Real.log (m - (s.propellant_mass + s.dry_mass)) <
          Real.log m := Real.log_lt_log hm'pos (by linarith)
      have hhead : GRAVITY * isp *
          (Real.log m - Real.log (m - (s.propellant_mass + s.dry_mass))) ≤
          GRAVITY * s.propellant.isp_vac *
          (Real.log m - Real.log (m - (s.propellant_mass + s.dry_mass))) := by
        apply mul_le_mul_of_nonneg_right _ (by linarith)
        exact mul_le_mul_of_nonneg_left (hb s (List.mem_cons_self s rest))
          (le_of_lt GRAVITY_pos)
      have htail := ih (m - (s.propellant_mass + s.dry_mass)) isp v2 hisp0
        hrest hbrest hm2 hrec
      rw [sumPD_cons]
      have hfin : m - ((s.propellant_mass + s.dry_mass) + sumPD rest) =
          m - (s.propellant_mass + s.dry_mass) - sumPD rest := by ring
      rw [hfin, ← hveq, hlogdiv]
      have e1 : GRAVITY * isp * (Real.log m -
          Real.log (m - (s.propellant_mass + s.dry_mass) - sumPD rest)) =
          GRAVITY * isp * (Real.log m -
            Real.log (m - (s.propellant_mass + s.dry_mass))) +
          GRAVITY * isp * (Real.log (m - (s.propellant_mass + s.dry_mass)) -
            Real.log (m - (s.propellant_mass + s.dry_mass) - sumPD rest)) := by
        ring
      rw [e1]
      exact add_le_add hhead htail

end RocketPhysics

namespace RocketPhysics

lemma propellantFor_lh2 : propellantFor "LOX/LH2" = LOX_LH2 := by
  unfold propellantFor
  rw [if_pos rfl]

/-- A small stage built by the constructor: 1 kg dry, 1 kg propellant,
zero thrust, default-role name (no role keyword). -/
noncomputable def oneStage : Stage := builtStage "S" 1 1 0 0 1 1 1 "LOX/LH2"

lemma mk_oneStage : mkStage? "S" 1 1 0 0 1 1 1 "LOX/LH2" = some oneStage :=
  mkStage_eq "S" 1 1 0 0 1 1 1 "LOX/LH2" (by norm_num) (by norm_num)

lemma oneStage_wf : StageWF oneStage := by
  refine ⟨by norm_num [oneStage, builtStage], by norm_num [oneStage, builtStage], ?_, by norm_num [oneStage, builtStage]⟩
  simp only [oneStage, builtStage, propellantFor_lh2]
  norm_num [LOX_LH2]

/-- A stage built by the constructor with a negative dry mass, giving a
negative `mass_ratio`; `Stage.__init__` completes on it without error. -/
noncomputable def badStage : Stage := builtStage "B" (-1) 2 0 0 1 1 1 "LOX/LH2"

lemma mk_badStage : mkStage? "B" (-1) 2 0 0 1 1 1 "LOX/LH2" = some badStage :=
  mkStage_eq "B" (-1) 2 0 0 1 1 1 "LOX/LH2" (by norm_num) (by norm_num)

lemma badStage_mass_ratio : badStage.mass_ratio = -1 := by
  simp only [badStage, builtStage]
  norm_num

/-- A single-stage rocket with 1 kg payload around `oneStage`. -/
noncomputable def oneStageRocket : MultiStageRocket :=
  { name := "R1", payload_mass := 1, stages := [oneStage] }

lemma oneStageRocket_totalMass : totalMass oneStageRocket = 3 := by
  simp only [totalMass, oneStageRocket, oneStage, builtStage, List.map_cons,
    List.map_nil, List.sum_cons, List.sum_nil]
  norm_num

/-- A two-stage rocket with 1 kg payload, both stages `oneStage`. -/
noncomputable def twoStageRocket : MultiStageRocket :=
  { name := "R2", payload_mass := 1, stages := [oneStage, oneStage] }

/-- Claim C1, counterexample: on a single-stage rocket with payload 1 kg
and stage masses 1 kg dry / 1 kg propellant, `get_total_delta_v` returns
`GRAVITY * 450 * log 3` — the log ratio `3/1` spans the propellant *and*
the dry mass — while the walk the claim describes (mass decreases by the
propellant during the burn, then by the dry mass at separation) gives
`GRAVITY * 450 * log (3/2)`.  The two differ, so `get_total_delta_v` is
not the computation the claim states. -/
theorem C1_counterexample :
    getTotalDeltaV? oneStageRocket = some (GRAVITY * 450 * Real.log 3) ∧
    specDeltaVWalk (totalMass oneStageRocket) oneStageRocket.stages =
      GRAVITY * 450 * Real.log (3 / 2) ∧
    getTotalDeltaV? oneStageRocket ≠
      some (specDeltaVWalk (totalMass oneStageRocket) oneStageRocket.stages) := by
  have hstages : oneStageRocket.stages = [oneStage] := rfl
  have hprop : oneStage.propellant = LOX_LH2 := by
    simp only [oneStage, builtStage, propellantFor_lh2]
  have hpm : oneStage.propellant_mass = 1 := rfl
  have hdm : oneStage.dry_mass = 1 := rfl
  have hwalk : getTotalDeltaV? oneStageRocket =
      some (GRAVITY * 450 * Real.log 3) := by
    unfold getTotalDeltaV?
    rw [oneStageRocket_totalMass, hstages]
    simp only [deltaVWalk, hpm, hdm, hprop]
    norm_num [LOX_LH2]
  have hspec : specDeltaVWalk (totalMass oneStageRocket)
      oneStageRocket.stages = GRAVITY * 450 * Real.log (3 / 2) := by
    rw [oneStageRocket_totalMass, hstages]
    simp only [specDeltaVWalk, hpm, hdm, hprop]
    norm_num [LOX_LH2]
  refine ⟨hwalk, hspec, ?_⟩
  rw [hwalk, hspec]
  intro hcontra
  have heq : GRAVITY * 450 * Real.log 3 = GRAVITY * 450 * Real.log (3 / 2) :=
    Option.some.inj hcontra
  have hlt : Real.log (3 / 2) < Real.log 3 :=
    Real.log_lt_log (by norm_num) (by norm_num)
  have hgp : (0 : ℝ) < GRAVITY * 450 :=
    mul_pos GRAVITY_pos (by norm_num)
  nlinarith

/-- Claim C1, amended: `get_total_delta_v` walks the stages in burn order
applying the Tsiolkovsky equation with each stage's vacuum Isp to the
running vehicle mass, but it subtracts the stage's propellant mass *and*
dry mass from the running mass before taking the log ratio, so each
stage's ratio spans burn and separation together.  On every rocket with
positive payload and well-formed stages the walk is defined, and (stages
being present) it strictly exceeds the burn-then-separate walk described
by the spec, because dropping the dry mass inside the log overcredits
delta-v. -/
theorem C1_total_delta_v_walk (r : MultiStageRocket)
    (hpay : 0 < r.payload_mass) (hwf : ∀ s ∈ r.stages, StageWF s)
    (hne : r.stages ≠ []) :
    (getTotalDeltaV? r).isSome = true ∧
    specDeltaVWalk (totalMass r) r.stages < (getTotalDeltaV? r).getD 0 := by
  have hm : 0 < totalMass r - sumPD r.stages := by
    rw [totalMass_eq r hwf]; linarith
  obtain ⟨v, hv, -, hlt⟩ := deltaVWalk_some r.stages (totalMass r) hwf hm
  have hg : getTotalDeltaV? r = some v := hv
  rw [hg]
  exact ⟨rfl, hlt hne⟩

/-- Claim C1 witness: the amended statement instantiated on the concrete
single-stage rocket. -/
theorem C1_total_delta_v_walk_witness :
    (getTotalDeltaV? oneStageRocket).isSome = true ∧
    specDeltaVWalk (totalMass oneStageRocket) oneStageRocket.stages <
      (getTotalDeltaV? oneStageRocket).getD 0 :=
  C1_total_delta_v_walk oneStageRocket (by norm_num [oneStageRocket])
    (by
      intro s hs
      have : s = oneStage := by simpa [oneStageRocket] using hs
      rw [this]
      exact oneStage_wf)
    (by simp [oneStageRocket])

/-- Claim C2, counterexample: `Stage.__init__` accepts dry mass -1 kg and
propellant mass 2 kg, producing `mass_ratio = -1 ≤ 0`; on that stage
`get_delta_v` does not return 0 — `math.log(-1)` raises `ValueError`
(modelled as `none`). -/
theorem C2_counterexample :
    mkStage? "B" (-1) 2 0 0 1 1 1 "LOX/LH2" = some badStage ∧
    badStage.mass_ratio ≤ 0 ∧ getDeltaV? badStage ≠ some 0 := by
  refine ⟨mk_badStage, by rw [badStage_mass_ratio]; norm_num, ?_⟩
  unfold getDeltaV?
  rw [if_pos (by rw [badStage_mass_ratio]; norm_num : badStage.mass_ratio ≤ 0)]
  simp

/-- Claim C2, amended: for a stage produced by the constructor whose
`mass_ratio` is non-positive, `get_delta_v` raises (the Tsiolkovsky
expression `isp * g0 * log(mass_ratio)` is evaluated unguarded, and
`math.log` rejects non-positive arguments); no guard returns 0. -/
theorem C2_delta_v_unguarded (name : String) (d p tsl tv bt dia len : ℝ)
    (pt : String) (st : Stage)
    (_hmk : mkStage? name d p tsl tv bt dia len pt = some st)
    (hratio : st.mass_ratio ≤ 0) : getDeltaV? st = none := by
  unfold getDeltaV?
  rw [if_pos hratio]

/-- Claim C2 witness: the amended statement instantiated on the concrete
negative-mass-ratio stage. -/
theorem C2_delta_v_unguarded_witness : getDeltaV? badStage = none :=
  C2_delta_v_unguarded "B" (-1) 2 0 0 1 1 1 "LOX/LH2" badStage mk_badStage
    (by rw [badStage_mass_ratio]; norm_num)

lemma sumPD_split (l : List Stage) : sumPD l =
    (l.map Stage.propellant_mass).sum + (l.map Stage.dry_mass).sum := by
  induction l with
  | nil => simp [sumPD]
  | cons s rest ih =>
    rw [sumPD_cons, ih]
    simp only [List.map_cons, List.sum_cons]
    ring

lemma sumDry_nonneg (l : List Stage) (h : ∀ s ∈ l, StageWF s) :
    0 ≤ (l.map Stage.dry_mass).sum := by
  induction l with
  | nil => simp
  | cons s rest ih =>
    obtain ⟨hd, -, -, -⟩ := h s (List.mem_cons_self s rest)
    have := ih (fun x hx => h x (List.mem_cons_of_mem s hx))
    simp only [List.map_cons, List.sum_cons]
    linarith

lemma sumDry_pos (l : List Stage) (h : ∀ s ∈ l, StageWF s) (hne : l ≠ []) :
    0 < (l.map Stage.dry_mass).sum := by
  cases l with
  | nil => exact absurd rfl hne
  | cons s rest =>
    obtain ⟨hd, -, -, -⟩ := h s (List.mem_cons_self s rest)
    have := sumDry_nonneg rest (fun x hx => h x (List.mem_cons_of_mem s hx))
    simp only [List.map_cons, List.sum_cons]
    linarith

/-- Claim C5: on a multi-stage rocket (at least two stages, all
well-formed, positive payload) whose stages' vacuum Isps all admit the
lower bound `isp > 0` used for the single-stage comparison,
`get_total_delta_v` is defined and strictly exceeds the naive
whole-vehicle-as-one-stage delta-v (all propellant burned, every dry mass
and the payload retained to burnout): staging strictly helps. -/
theorem C5_staging_strictly_helps (r : MultiStageRocket) (isp : ℝ)
    (hlen : 2 ≤ r.stages.length) (hpay : 0 < r.payload_mass)
    (hwf : ∀ s ∈ r.stages, StageWF s) (hisp : 0 < isp)
    (hb : ∀ s ∈ r.stages, isp ≤ s.propellant.isp_vac) :
    (getTotalDeltaV? r).isSome = true ∧
    naiveSingleStageDeltaV r isp < (getTotalDeltaV? r).getD 0 := by
  have hne : r.stages ≠ [] := by
    intro hnil
    rw [hnil] at hlen
    simp at hlen
  have heq : totalMass r - sumPD r.stages = r.payload_mass := by
    rw [totalMass_eq r hwf]; ring
  have hm : 0 < totalMass r - sumPD r.stages := by rw [heq]; exact hpay
  obtain ⟨v, hv, -, -⟩ := deltaVWalk_some r.stages (totalMass r) hwf hm
  have hge := deltaVWalk_ge r.stages (totalMass r) isp v (le_of_lt hisp)
    hwf hb hm hv
  rw [heq] at hge
  have hM : 0 < totalMass r := by
    have := sumPD_nonneg r.stages hwf
    linarith [hm]
  have hD : 0 < (r.stages.map Stage.dry_mass).sum := sumDry_pos r.stages hwf hne
  have hMP : totalMass r - (r.stages.map Stage.propellant_mass).sum =
      r.payload_mass + (r.stages.map Stage.dry_mass).sum := by
    rw [totalMass_eq r hwf, sumPD_split]
    ring
  have hMPpos : 0 < totalMass r - (r.stages.map Stage.propellant_mass).sum := by
    rw [hMP]; linarith
  have hnaive : naiveSingleStageDeltaV r isp = GRAVITY * isp *
      (Real.log (totalMass r) -
        Real.log (totalMass r - (r.stages.map Stage.propellant_mass).sum)) := by
    unfold naiveSingleStageDeltaV
    rw [Real.log_div (ne_of_gt hM) (ne_of_gt hMPpos)]
  have hloglt : Real.log r.payload_mass <
      Real.log (totalMass r - (r.stages.map Stage.propellant_mass).sum) := by
    rw [hMP]
    exact Real.log_lt_log hpay (by linarith)
  have hgi : 0 < GRAVITY * isp := mul_pos GRAVITY_pos hisp
  have hstep : naiveSingleStageDeltaV r isp <
      GRAVITY * isp * (Real.log (totalMass r) - Real.log r.payload_mass) := by
    rw [hnaive]
    apply mul_lt_mul_of_pos_left _ hgi
    linarith
  have hg : getTotalDeltaV? r = some v := hv
  rw [hg]
  exact ⟨rfl, by simpa using lt_of_lt_of_le hstep hge⟩

/-- Claim C5 witness: the statement instantiated on the concrete two-stage
rocket with uniform 450 s vacuum Isp. -/
theorem C5_staging_strictly_helps_witness :
    (getTotalDeltaV? twoStageRocket).isSome = true ∧
    naiveSingleStageDeltaV twoStageRocket 450 <
      (getTotalDeltaV? twoStageRocket).getD 0 :=
  C5_staging_strictly_helps twoStageRocket 450 (by simp [twoStageRocket])
    (by norm_num [twoStageRocket])
    (by
      intro s hs
      have : s = oneStage := by
        rcases (by simpa [twoStageRocket] using hs : s = oneStage ∨ s = oneStage) with h | h <;> exact h
      rw [this]
      exact oneStage_wf)
    (by norm_num)
    (by
      intro s hs
      have : s = oneStage := by
        rcases (by simpa [twoStageRocket] using hs : s = oneStage ∨ s = oneStage) with h | h <;> exact h
      rw [this]
      have : oneStage.propellant = LOX_LH2 := by
        simp only [oneStage, builtStage, propellantFor_lh2]
      rw [this]
      norm_num [LOX_LH2])

/-- Claim C10: constructing a `Stage` with a propellant-type string that is
none of the catalog keys does not fail; the constructor behaves exactly as
if `"LOX/LH2"` had been requested, so every derived quantity (delta-v,
flow rate, nozzle geometry) is computed from the LOX/LH2 properties. -/
theorem C10_unknown_propellant_fallback (name : String)
    (d p tsl tv bt dia len : ℝ) (pt : String)
    (h1 : pt ≠ "LOX/LH2") (h2 : pt ≠ "LOX/RP1") (h3 : pt ≠ "HTPB") :
    mkStage? name d p tsl tv bt dia len pt =
      mkStage? name d p tsl tv bt dia len "LOX/LH2" := by
  have hsel : propellantFor pt = propellantFor "LOX/LH2" := by
    unfold propellantFor
    rw [if_neg h1, if_neg h2, if_neg h3, if_pos rfl]
  unfold mkStage?
  rw [hsel]

/-- Claim C10 witness: an off-catalog propellant string behaves as
`"LOX/LH2"`. -/
theorem C10_unknown_propellant_fallback_witness :
    mkStage? "S" 1 1 0 0 1 1 1 "N2O4/UDMH" =
      mkStage? "S" 1 1 0 0 1 1 1 "LOX/LH2" :=
  C10_unknown_propellant_fallback "S" 1 1 0 0 1 1 1 "N2O4/UDMH"
    (by decide) (by decide) (by decide)

end RocketPhysics

namespace RocketOptimizer

open RocketPhysics

/-- Claim C6: whenever the first-stage sea-level thrust-to-weight ratio at
liftoff is below 1.2 (on a configuration whose delta-v walk is defined:
positive payload, well-formed stages), `_estimate_altitude` returns exactly
0 with the infeasibility warning, and no exception escapes. -/
lemma estimateAltitude_low_twr (r : MultiStageRocket) (s0 : Stage)
    (rest : List Stage) (hs : r.stages = s0 :: rest)
    (hpay : 0 < r.payload_mass) (hwf : ∀ s ∈ r.stages, StageWF s)
    (htwr : s0.thrust_sl / (totalMass r * GRAVITY) < 1.2) :
    estimateAltitude? r = some (0, true) := by
  have heq : totalMass r - sumPD r.stages = r.payload_mass := by
    rw [totalMass_eq r hwf]; ring
  have hm : 0 < totalMass r - sumPD r.stages := by rw [heq]; exact hpay
  obtain ⟨v, hv, -, -⟩ := deltaVWalk_some r.stages (totalMass r) hwf hm
  have hg : getTotalDeltaV? r = some v := hv
  have hM : 0 < totalMass r := by
    have := sumPD_nonneg r.stages hwf
    linarith
  have hMG : ¬(totalMass r * GRAVITY = 0) :=
    ne_of_gt (mul_pos hM GRAVITY_pos)
  unfold estimateAltitude?
  rw [hg, hs, Option.bind_eq_bind', Option.some_bind]
  dsimp only
  rw [if_neg hMG, if_pos htwr]

/-- Claim C6: whenever the first-stage sea-level thrust-to-weight ratio at
liftoff is below 1.2 (on a configuration whose delta-v walk is defined:
positive payload, well-formed stages), `_estimate_altitude` returns exactly
0 with the infeasibility warning, and no exception escapes (non-fatal). -/
theorem C6_low_twr_zero_altitude (r : MultiStageRocket) (s0 : Stage)
    (rest : List Stage) (hs : r.stages = s0 :: rest)
    (hpay : 0 < r.payload_mass) (hwf : ∀ s ∈ r.stages, StageWF s)
    (htwr : s0.thrust_sl / (totalMass r * GRAVITY) < 1.2) :
    estimateAltitude? r = some (0, true) :=
  estimateAltitude_low_twr r s0 rest hs hpay hwf htwr

/-- Claim C6 witness: the zero-thrust single-stage rocket (TWR 0 < 1.2)
yields altitude 0 with the warning flag. -/
theorem C6_low_twr_zero_altitude_witness :
    estimateAltitude? oneStageRocket = some (0, true) :=
  C6_low_twr_zero_altitude oneStageRocket oneStage [] rfl
    (by norm_num [oneStageRocket])
    (by
      intro s hs
      have h1 : s = oneStage := by simpa [oneStageRocket] using hs
      rw [h1]
      exact oneStage_wf)
    (by
      rw [oneStageRocket_totalMass]
      have h0 : oneStage.thrust_sl = 0 := rfl
      show oneStage.thrust_sl / (3 * GRAVITY) < 1.2
      rw [h0, zero_div]
      norm_num)

end RocketOptimizer

namespace RocketPhysics

lemma propellantFor_rp1 : propellantFor "LOX/RP1" = LOX_RP1 := by
  unfold propellantFor
  rw [if_neg (by decide), if_pos rfl]

lemma propellantFor_htpb : propellantFor "HTPB" = HTPB := by
  unfold propellantFor
  rw [if_neg (by decide), if_neg (by decide), if_pos rfl]

lemma opt_ratio_first : optimalExpansionRatio "First Stage" = 10 := by
  simp only [optimalExpansionRatio]
  rw [if_pos (by decide)]

/-- Modelled from the spec (claim C4): the throat area that would result
from evaluating the thrust coefficient at the stage's chosen optimal
expansion ratio, as the claim describes the computation. -/
noncomputable def specThroatArea (name pt : String) (thrust_vac : ℝ) : ℝ :=
  thrust_vac / (thrustCoefficient (optimalExpansionRatio name)
    (propellantFor pt).gamma * (propellantFor pt).chamber_pressure)

/-- A first-stage LOX/LH2 stage with vacuum thrust equal to the chamber
pressure (6.9 MPa), built by the constructor. -/
noncomputable def c4Stage : Stage :=
  builtStage "First Stage" 1 1 0 6900000 1 1 1 "LOX/LH2"

lemma mk_c4Stage :
    mkStage? "First Stage" 1 1 0 6900000 1 1 1 "LOX/LH2" = some c4Stage :=
  mkStage_eq "First Stage" 1 1 0 6900000 1 1 1 "LOX/LH2" (by norm_num)
    (by norm_num)

/-- The same stage parameters under a second-stage name. -/
noncomputable def c4StageB : Stage :=
  builtStage "Second Stage" 1 1 0 6900000 1 1 1 "LOX/LH2"

lemma mk_c4StageB :
    mkStage? "Second Stage" 1 1 0 6900000 1 1 1 "LOX/LH2" = some c4StageB :=
  mkStage_eq "Second Stage" 1 1 0 6900000 1 1 1 "LOX/LH2" (by norm_num)
    (by norm_num)

/-- Claim C4, counterexample: on a first-stage LOX/LH2 stage the
constructor's `throat_area` uses the thrust coefficient at the fixed
initial-guess expansion ratio 20, which differs from the value the claim
describes (Cf at the stage's optimal expansion ratio 10), because the
thrust coefficient is strictly increasing in the expansion ratio. -/
theorem C4_counterexample :
    mkStage? "First Stage" 1 1 0 6900000 1 1 1 "LOX/LH2" = some c4Stage ∧
    c4Stage.throat_area ≠ specThroatArea "First Stage" "LOX/LH2" 6900000 := by
  refine ⟨mk_c4Stage, ?_⟩
  have hta : c4Stage.throat_area = 6900000 /
      (thrustCoefficient 20 LOX_LH2.gamma * LOX_LH2.chamber_pressure) := by
    simp only [c4Stage, builtStage, stageThroatArea, propellantFor_lh2]
  have hspec : specThroatArea "First Stage" "LOX/LH2" 6900000 = 6900000 /
      (thrustCoefficient 10 LOX_LH2.gamma * LOX_LH2.chamber_pressure) := by
    unfold specThroatArea
    rw [propellantFor_lh2, opt_ratio_first]
  rw [hta, hspec]
  have hg : (1 : ℝ) < LOX_LH2.gamma := by norm_num [LOX_LH2]
  have hlt : thrustCoefficient 10 LOX_LH2.gamma <
      thrustCoefficient 20 LOX_LH2.gamma :=
    thrustCoefficient_lt LOX_LH2.gamma 10 20 hg (by norm_num) (by norm_num)
  have h10 : 0 < thrustCoefficient 10 LOX_LH2.gamma :=
    thrustCoefficient_pos 10 LOX_LH2.gamma hg (by norm_num)
  have hpc : (0 : ℝ) < LOX_LH2.chamber_pressure := by norm_num [LOX_LH2]
  have hb20 : thrustCoefficient 20 LOX_LH2.gamma *
      LOX_LH2.chamber_pressure ≠ 0 :=
    ne_of_gt (mul_pos (lt_trans h10 hlt) hpc)
  have hb10 : thrustCoefficient 10 LOX_LH2.gamma *
      LOX_LH2.chamber_pressure ≠ 0 := ne_of_gt (mul_pos h10 hpc)
  intro hcontra
  rw [div_eq_div_iff hb20 hb10] at hcontra
  have hcc : thrustCoefficient 10 LOX_LH2.gamma * LOX_LH2.chamber_pressure =
      thrustCoefficient 20 LOX_LH2.gamma * LOX_LH2.chamber_pressure :=
    mul_left_cancel₀ (by norm_num : (6900000:ℝ) ≠ 0) hcontra
  have := mul_right_cancel₀ (ne_of_gt hpc) hcc
  exact absurd this (ne_of_lt hlt)

/-- Claim C4, amended: the constructor computes the thrust coefficient
from isentropic theory as a function of gamma at the *fixed* initial-guess
expansion ratio 20 (with the 0.98 divergence correction), so
`throat_area = thrust_vac / (Cf(20, gamma) * chamber_pressure)` is
independent of the stage's role; the role-chosen optimal expansion ratio
(10 first/booster, 40 second, 80 third/upper, 25 otherwise) only sets
`expansion_ratio` and `exit_area = throat_area * expansion_ratio`. -/
theorem C4_nozzle_sizing_fixed_cf (name1 name2 : String)
    (d p tsl tv bt dia len : ℝ) (pt : String) (st1 st2 : Stage)
    (hd : d ≠ 0) (htv : 0 ≤ tv)
    (h1 : mkStage? name1 d p tsl tv bt dia len pt = some st1)
    (h2 : mkStage? name2 d p tsl tv bt dia len pt = some st2) :
    st1.throat_area = tv / (thrustCoefficient 20 (propellantFor pt).gamma *
      (propellantFor pt).chamber_pressure) ∧
    st1.expansion_ratio = optimalExpansionRatio name1 ∧
    st1.exit_area = st1.throat_area * optimalExpansionRatio name1 ∧
    st2.throat_area = st1.throat_area := by
  have e1 : st1 = builtStage name1 d p tsl tv bt dia len pt :=
    Option.some.inj (h1.symm.trans (mkStage_eq name1 d p tsl tv bt dia len pt hd htv))
  have e2 : st2 = builtStage name2 d p tsl tv bt dia len pt :=
    Option.some.inj (h2.symm.trans (mkStage_eq name2 d p tsl tv bt dia len pt hd htv))
  rw [e1, e2]
  refine ⟨rfl, rfl, rfl, rfl⟩

/-- Claim C4 witness: the amended statement on the two concrete stages
(first-stage and second-stage roles, identical thrust and propellant). -/
theorem C4_nozzle_sizing_fixed_cf_witness :
    c4Stage.throat_area = 6900000 /
      (thrustCoefficient 20 (propellantFor "LOX/LH2").gamma *
        (propellantFor "LOX/LH2").chamber_pressure) ∧
    c4Stage.expansion_ratio = optimalExpansionRatio "First Stage" ∧
    c4Stage.exit_area = c4Stage.throat_area *
      optimalExpansionRatio "First Stage" ∧
    c4StageB.throat_area = c4Stage.throat_area :=
  C4_nozzle_sizing_fixed_cf "First Stage" "Second Stage" 1 1 0 6900000 1 1 1
    "LOX/LH2" c4Stage c4StageB (by norm_num) (by norm_num) mk_c4Stage
    mk_c4StageB

end RocketPhysics

namespace RocketOptimizer

open RocketPhysics

/-- Claim C3: the wall-thickness routine's tank-pressure branch tests
`"LOX" in stage.propellant["name"]`, but no catalog display name contains
the literal substring `"LOX"` (they spell out "Liquid Oxygen"), so every
catalog propellant — including the cryogenic LOX/LH2 and LOX/RP1 entries —
gets the 2e5 Pa non-cryo tank pressure, never the 3e5 Pa the claim
states. -/
theorem C3_tank_pressure_always_low :
    tankPressure (propellantFor "LOX/LH2") = 200000 ∧
    tankPressure (propellantFor "LOX/RP1") = 200000 ∧
    tankPressure (propellantFor "HTPB") = 200000 := by
  refine ⟨?_, ?_, ?_⟩
  · rw [propellantFor_lh2]
    unfold tankPressure
    rw [if_neg (by decide)]
  · rw [propellantFor_rp1]
    unfold tankPressure
    rw [if_neg (by decide)]
  · rw [propellantFor_htpb]
    unfold tankPressure
    rw [if_neg (by decide)]

end RocketOptimizer

namespace PerformanceAnalysis

/-- Claim C8: whenever `calculate_maximum_payload` returns, the analyzer's
`dry_mass` attribute (first component of the result) equals the value it
had on entry, for every apogee function, initial dry mass, optional target
and range, and loop budget: the search's mutation of `dry_mass` is always
undone by the unconditional final restore. -/
theorem C8_dry_mass_restored (apogee : ℝ → ℝ) (dry_mass : ℝ)
    (ta : Option ℝ) (ar : Option ℝ) (fuel : ℕ) (out : ℝ × PayloadInfo)
    (h : calculateMaximumPayload apogee dry_mass ta ar fuel = some out) :
    out.1 = dry_mass := by
  unfold calculateMaximumPayload at h
  rw [Option.bind_eq_bind'] at h
  obtain ⟨fin, -, hfin⟩ := Option.bind_eq_some.mp h
  have h2 := Option.some.inj hfin
  rw [← h2]

/-- A constant-apogee trajectory model used to exercise the payload
search. -/
noncomputable def c8Apogee : ℝ → ℝ := fun _ => 100

/-- The result of the payload search under `c8Apogee` with target 100 m,
range 5 m: the very first probe (payload 75 kg, dry mass mutated to
525 kg) lands in the band and the search breaks, after which the dry mass
is restored to 500 kg. -/
noncomputable def c8Out : ℝ × PayloadInfo :=
  (500, { max_payload := 75, altitude_with_max_payload := 100,
          target_altitude := 100, altitude_difference := 100 - 100 })

lemma c8_run :
    calculateMaximumPayload c8Apogee 500 (some 100) (some 5) 1 =
      some c8Out := by
  unfold calculateMaximumPayload payloadLoop c8Apogee
  norm_num [c8Out]

/-- Claim C8 witness: the restore property instantiated on the concrete
search run. -/
theorem C8_dry_mass_restored_witness : c8Out.1 = 500 :=
  C8_dry_mass_restored c8Apogee 500 (some 100) (some 5) 1 c8Out c8_run

/-- Claim C9: for negative altitude the atmosphere model returns exactly
the sea-level triple `(p0, rho0, T0)`, and on any dynamics evaluation at
negative altitude (above the singular `-EARTH_RADIUS` point, with a
defined non-zero current mass) the right-hand side of the ascent ODE is
defined — no exception escapes when altitude momentarily goes negative. -/
theorem C9_negative_altitude_clamped (altitude velocity thrust burn_time
    wet_mass dry_mass propellant_mass max_diameter t m : ℝ)
    (hneg : altitude < 0) (hfloor : -6371000 < altitude)
    (hm : massFunction? wet_mass dry_mass propellant_mass burn_time t = some m)
    (hm0 : m ≠ 0) :
    atmosphericProperties altitude = (101325, 1.225, 288.15) ∧
    (dynamics? thrust burn_time wet_mass dry_mass propellant_mass
      max_diameter t altitude velocity).isSome = true := by
  have hatm : atmosphericProperties altitude = (101325, 1.225, 288.15) := by
    unfold atmosphericProperties
    rw [if_pos hneg]
  refine ⟨hatm, ?_⟩
  have hdrag : (dragForce? max_diameter altitude velocity).isSome = true := by
    unfold dragForce?
    rw [hatm]
    rw [if_neg (by norm_num : ¬((1.4:ℝ) * 287.05 * 288.15 < 0))]
    rfl
  obtain ⟨drag, hdrag_eq⟩ := Option.isSome_iff_exists.mp hdrag
  unfold dynamics?
  rw [hm, Option.bind_eq_bind', Option.some_bind]
  rw [if_neg (by linarith : ¬((6371000:ℝ) + altitude = 0)), hdrag_eq,
    Option.bind_eq_bind', Option.some_bind]
  rw [if_neg hm0]
  rfl

/-- Claim C9 witness: altitude -1 m with a live 10 kg vehicle. -/
theorem C9_negative_altitude_clamped_witness :
    atmosphericProperties (-1) = (101325, 1.225, 288.15) ∧
    (dynamics? 0 1 10 5 0 1 0 (-1) 0).isSome = true :=
  C9_negative_altitude_clamped (-1) 0 0 1 10 5 0 1 0 10 (by norm_num)
    (by norm_num)
    (by
      unfold massFunction?
      rw [if_pos (by norm_num : (0:ℝ) ≤ 1), if_neg (by norm_num : (1:ℝ) ≠ 0)]
      norm_num)
    (by norm_num)

end PerformanceAnalysis

namespace RocketPhysics

lemma isp_vac_pos (pt : String) : 0 < (propellantFor pt).isp_vac := by
  rcases propellantFor_mem pt with h | h | h <;>
    rw [h] <;> norm_num [LOX_LH2, LOX_RP1, HTPB]

end RocketPhysics

namespace RocketOptimizer

open RocketPhysics

/-- The role-dependent propellant mass fraction table of
`_initialize_rocket` (0.93 first stage, 0.90 second, 0.88 third). -/
noncomputable def propFrac (i : ℕ) : ℝ :=
  if i = 0 then 0.93 else if i = 1 then 0.90 else 0.88

/-- On a positive stage-mass allocation, the heuristic stage sizing
completes (no exception) and the resulting stage has the expected mass
bookkeeping. -/
lemma initStage_spec (t e : ℝ) (i : ℕ) (frac : ℝ) (prop : String)
    (he : 0 < e * frac) :
    ∃ st, initStage? t e i frac prop = some st ∧
      st.propellant = propellantFor prop ∧
      st.dry_mass = e * frac - e * frac * propFrac i ∧
      st.propellant_mass = e * frac * propFrac i ∧
      st.total_mass = e * frac ∧
      st.thrust_sl = (if i = 0 then 1.4 * (e * frac) * GRAVITY else 0) ∧
      StageWF st := by
  have hpf0 : 0 < propFrac i := by
    unfold propFrac
    split_ifs <;> norm_num
  have hpf1 : propFrac i < 1 := by
    unfold propFrac
    split_ifs <;> norm_num
  have hdry : 0 < e * frac - e * frac * propFrac i := by nlinarith
  have hd : e * frac - e * frac * propFrac i ≠ 0 := ne_of_gt hdry
  have htv : (0:ℝ) ≤ (if i = 0 then 1.6 * (e * frac) * GRAVITY
      else 0.9 * (e * frac) * GRAVITY) := by
    have hG := GRAVITY_pos
    split_ifs <;> nlinarith
  refine ⟨builtStage ("Stage " ++ toString (i + 1))
      (e * frac - e * frac * propFrac i) (e * frac * propFrac i)
      (if i = 0 then 1.4 * (e * frac) * GRAVITY else 0)
      (if i = 0 then 1.6 * (e * frac) * GRAVITY else 0.9 * (e * frac) * GRAVITY)
      (if 0 < e * frac * propFrac i ∧ 0 < (if i = 0 then
          1.6 * (e * frac) * GRAVITY else 0.9 * (e * frac) * GRAVITY) then
        e * frac * propFrac i /
          ((if i = 0 then 1.6 * (e * frac) * GRAVITY
            else 0.9 * (e * frac) * GRAVITY) /
            ((if prop = "LOX/RP1" then (340:ℝ) else 450) * GRAVITY))
      else 200)
      ((if t < 100000 then (1.5:ℝ) else if t < 400000 then 3.7 else 8.4) *
        (if i = 0 then (1.0:ℝ) else if i = 1 then 0.9 else 0.8))
      ((if t < 100000 then (1.5:ℝ) else if t < 400000 then 3.7 else 8.4) *
        (if i = 0 then (1.0:ℝ) else if i = 1 then 0.9 else 0.8) *
        (if i = 0 then (10.0:ℝ) else if i = 1 then 5.0 else 3.0))
      prop, ?_, rfl, rfl, rfl, ?_, rfl, ?_⟩
  · simp only [initStage?, propFrac]
    exact mkStage_eq _ _ _ _ _ _ _ _ _ hd htv
  · show (e * frac - e * frac * propFrac i) + e * frac * propFrac i = e * frac
    ring
  · refine ⟨hdry, mul_pos he hpf0, ?_, ?_⟩
    · show 0 < (propellantFor prop).isp_vac
      exact isp_vac_pos prop
    · show (e * frac - e * frac * propFrac i) + e * frac * propFrac i =
        (e * frac - e * frac * propFrac i) + e * frac * propFrac i
      rfl

/-- Claim C7 (the code at the spec's failing inputs): constructing the
optimizer with a *negative* target altitude (-400 km) and a positive
payload performs no input validation at all — `__init__` proceeds through
`_initialize_rocket`, builds both stages, computes the initial altitude
estimate (0, with a liftoff warning: the heuristic thrust gives TWR
≈ 1.07 < 1.2) and returns a constructed optimizer instead of failing fast
with a descriptive error. -/
theorem C7_no_fail_fast : (initOptimizer? (-400000) 2000 2).isSome = true := by
  obtain ⟨st1, h1, hpr1, hd1, hp1, ht1, hts1, hwf1⟩ :=
    initStage_spec (-400000) (2000 * 20) 0 0.80 "LOX/RP1" (by norm_num)
  obtain ⟨st2, h2, hpr2, hd2, hp2, ht2, hts2, hwf2⟩ :=
    initStage_spec (-400000) (2000 * 20) (0 + 1) 0.20 "LOX/LH2" (by norm_num)
  have hts1' : st1.thrust_sl = 1.4 * (2000 * 20 * 0.80) * GRAVITY := by
    rw [hts1]
    norm_num
  have ht2' : st2.total_mass = 2000 * 20 * 0.20 := ht2
  have hlist : initStages? (-400000) (2000 * 20) 0
      [(0.80, "LOX/RP1"), (0.20, "LOX/LH2")] = some [st1, st2] := by
    simp only [initStages?, Option.bind_eq_bind']
    rw [h1, Option.some_bind, h2]
    simp only [Option.some_bind]
  have hwfr : ∀ s ∈ [st1, st2], StageWF s := by
    intro s hs
    simp only [List.mem_cons, List.not_mem_nil, or_false] at hs
    rcases hs with rfl | rfl
    · exact hwf1
    · exact hwf2
  have htm : totalMass (MultiStageRocket.mk (toString 2 ++ "-Stage") 2000
      [st1, st2]) = 42000 := by
    show (2000:ℝ) + ([st1, st2].map Stage.total_mass).sum = 42000
    simp only [List.map_cons, List.map_nil, List.sum_cons, List.sum_nil]
    rw [ht1, ht2']
    norm_num
  have htwr : st1.thrust_sl / (totalMass (MultiStageRocket.mk
      (toString 2 ++ "-Stage") 2000 [st1, st2]) * GRAVITY) < 1.2 := by
    rw [htm, hts1']
    have hG := GRAVITY_pos
    rw [div_lt_iff₀ (by nlinarith : (0:ℝ) < 42000 * GRAVITY)]
    nlinarith
  have hest : estimateAltitude? (MultiStageRocket.mk
      (toString 2 ++ "-Stage") 2000 [st1, st2]) = some (0, true) :=
    estimateAltitude_low_twr _ st1 [st2] rfl (by norm_num) hwfr htwr
  have hif : (if ((-400000):ℝ) < 100000 then (20:ℝ)
      else if ((-400000):ℝ) < 400000 then 30 else 50) = 20 :=
    if_pos (by norm_num)
  unfold initOptimizer?
  rw [hif]
  rw [show stageTable 2 = some [(0.80, "LOX/RP1"), (0.20, "LOX/LH2")] from rfl,
    Option.bind_eq_bind', Option.some_bind, hlist,
    Option.bind_eq_bind', Option.some_bind]
  simp only [hest, Option.bind_eq_bind', Option.some_bind, Option.isSome_some]

end RocketOptimizer
